import Mathlib

/-!
Shallow embedding of the Galadriel agent runtime core,
`src/galadriel_agent/agent.py` (class `GaladrielAgent`), for verifying the
orchestration contract: fan-in dispatch, the per-request pipeline
(history augmentation, user logic, proof generation, proof publication,
multi-client delivery) and the state checkpoint placeholders.

Python exceptions are modelled with `Except String`; the awaited side
effects of a run are recorded as an explicit event trace.  Collaborators
that live outside `agent.py` (the `Client` port interface, the domain
functions `add_conversation_history.execute`, `generate_proof.execute`,
`publish_proof.execute`) are fields of the runtime record, universally
quantified in the theorems, with only the call structure of `agent.py`
fixed by the definitions.
-/

/-- Message envelope passed through the pipeline.  Modelled from the spec:
`galadriel_agent/entities.py` is not in the source tree; the spec gives
`{content: string, conversation_id: optional string}` plus opaque extras. -/
structure Message where
  content : String
  conversationId : Option String := none
deriving DecidableEq, Repr

/-- Mirrors the empty `@dataclass AgentConfig` of `agent.py`. -/
structure AgentConfig where
deriving DecidableEq, Repr

/-- Mirrors the empty placeholder class `AgentState` of `agent.py`. -/
structure AgentState where
deriving DecidableEq, Repr

/-- One awaited call performed by the runtime, recorded in order.
`C` is the client (port) type, `start c` is `client.start(queue)`,
`userRun r` is `user_agent.run(r)`, `genProof`/`pubProof` are the proof
collaborator calls, and `send c r resp p` is `client.post_output(r, resp, p)`. -/
inductive Event (C : Type) where
  | start (c : C)
  | userRun (request : Message)
  | genProof (request response : Message)
  | pubProof (request response : Message) (proof : String)
  | send (c : C) (request response : Message) (proof : String)
deriving DecidableEq, Repr

/-- The runtime object of `GaladrielAgent.__init__`: its stored fields,
with each collaborator object replaced by the function the core calls on
it.  `C` is the client type, `S` the opaque short-term-memory type. -/
structure GaladrielAgent (C S : Type) where
  agent_config : Option AgentConfig
  clients : List C
  user_agent : Message → Except String (Option Message)
  s3_client : Option Unit := none
  short_term_memory : Option S := none
  add_conversation_history : Message → S → Message
  generate_proof : Message → Message → String
  post_output : C → Message → Message → String → Except String Unit

/-- Mirrors `GaladrielAgent._add_conversation_history`: if
`short_term_memory` is set, delegate to the domain collaborator,
otherwise return the request unchanged. -/
def addConversationHistoryStep {C S : Type} (a : GaladrielAgent C S)
    (request : Message) : Message :=
  match a.short_term_memory with
  | some stm => a.add_conversation_history request stm
  | none => request

/-- Mirrors the delivery loop `for client in self.clients: await
client.post_output(request, response, proof)` of `run_request`: clients
are awaited one by one in list order, and the first raised exception
propagates, abandoning the rest of the loop.  The `send` event of a
failing client is still recorded (its call was made). -/
def post_outputs {C S : Type} (a : GaladrielAgent C S) (clients : List C)
    (request response : Message) (proof : String) :
    List (Event C) × Except String Unit :=
  match clients with
  | [] => ([], Except.ok ())
  | c :: cs =>
    match a.post_output c request response proof with
    | Except.error e => ([Event.send c request response proof], Except.error e)
    | Except.ok _ =>
      let rest := post_outputs a cs request response proof
      (Event.send c request response proof :: rest.1, rest.2)

/-- Mirrors `GaladrielAgent.run_request`: enrich the request, run the
user agent (which may raise or return `None`), and if a response was
produced, generate the proof, publish it, then deliver to every client.
Returns the event trace and the outcome of the awaited call chain. -/
def run_request {C S : Type} (a : GaladrielAgent C S) (request : Message) :
    List (Event C) × Except String Unit :=
  let request := addConversationHistoryStep a request
  match a.user_agent request with
  | Except.error e => ([Event.userRun request], Except.error e)
  | Except.ok none => ([Event.userRun request], Except.ok ())
  | Except.ok (some response) =>
    let proof := a.generate_proof request response
    let sends := post_outputs a a.clients request response proof
    (Event.userRun request :: Event.genProof request response ::
      Event.pubProof request response proof :: sends.1, sends.2)

/-- Mirrors `GaladrielAgent.export_state`: the body is `pass`, so the
call returns Python `None`. -/
def export_state {C S : Type} (_a : GaladrielAgent C S) : Option AgentState :=
  none

/-- Mirrors `GaladrielAgent.load_state`: the body is `pass`, so the call
mutates nothing; in state-passing form it returns the runtime unchanged. -/
def load_state {C S : Type} (a : GaladrielAgent C S)
    (_agent_state : Option AgentState) : GaladrielAgent C S :=
  a

/-- Mirrors the `while True` dispatch loop of `GaladrielAgent.run` on a
finite queue content: dequeue a message, await `run_request` to
completion, and only then dequeue the next.  There is no exception
handler around `run_request`, so a raised exception ends the loop. -/
def runLoop {C S : Type} (a : GaladrielAgent C S) (queue : List Message) :
    List (Event C) × Except String Unit :=
  match queue with
  | [] => ([], Except.ok ())
  | m :: ms =>
    let r := run_request a m
    match r.2 with
    | Except.error e => (r.1, Except.error e)
    | Except.ok _ =>
      let rest := runLoop a ms
      (r.1 ++ rest.1, rest.2)

/-- Mirrors `GaladrielAgent.run`: start every configured client as a
producer, call `load_state(None)`, then run the dispatch loop over the
messages the fan-in queue yields (in FIFO order for a single producer). -/
def run {C S : Type} (a : GaladrielAgent C S) (queue : List Message) :
    List (Event C) × Except String Unit :=
  let startTrace := a.clients.map Event.start
  let rest := runLoop (load_state a none) queue
  (startTrace ++ rest.1, rest.2)

/-- Client extractor for `send` events: which client a delivery went to. -/
def sendClient {C : Type} : Event C → Option C
  | Event.send c _ _ _ => some c
  | _ => none

/-- Client extractor for `start` events: which client was started. -/
def startClient {C : Type} : Event C → Option C
  | Event.start c => some c
  | _ => none

/-- Request extractor for `userRun` events: which enriched request the
user agent was invoked on. -/
def userRunRequest {C : Type} : Event C → Option Message
  | Event.userRun r => some r
  | _ => none

/-- True exactly on delivery (`send`) events. -/
def isSend {C : Type} : Event C → Bool
  | Event.send _ _ _ _ => true
  | _ => false

/-- True exactly on proof-generation events. -/
def isGenProof {C : Type} : Event C → Bool
  | Event.genProof _ _ => true
  | _ => false

/-- True exactly on proof-publication events. -/
def isPubProof {C : Type} : Event C → Bool
  | Event.pubProof _ _ _ => true
  | _ => false

/-- Concrete runtime with two clients in which client `0` raises from
`post_output` and client `1` succeeds. -/
def failingPortAgent : GaladrielAgent Nat Unit where
  agent_config := none
  clients := [0, 1]
  user_agent := fun m => Except.ok (some m)
  add_conversation_history := fun m _ => m
  generate_proof := fun _ _ => "p"
  post_output := fun c _ _ _ => if c = 0 then Except.error "boom" else Except.ok ()

/-- Concrete runtime whose user agent raises on every request. -/
def crashingUserAgent : GaladrielAgent Nat Unit where
  agent_config := none
  clients := [0]
  user_agent := fun _ => Except.error "user crash"
  add_conversation_history := fun m _ => m
  generate_proof := fun _ _ => "p"
  post_output := fun _ _ _ _ => Except.ok ()

/-- Concrete runtime whose user agent returns `None` on every request. -/
def absentResultAgent : GaladrielAgent Nat Unit where
  agent_config := none
  clients := [0, 1]
  user_agent := fun _ => Except.ok none
  add_conversation_history := fun m _ => m
  generate_proof := fun _ _ => "p"
  post_output := fun _ _ _ _ => Except.ok ()

/-- Concrete runtime for the spec's end-to-end scenario: the history
collaborator appends `"[ctx]"`, the user agent uppercases content
(character-wise, the model of Python `str.upper` on ASCII), the proof
generator returns `"P"`, and both clients accept delivery. -/
def scenarioAgent : GaladrielAgent Nat Unit where
  agent_config := none
  clients := [0, 1]
  user_agent := fun m =>
    Except.ok (some { m with content := String.mk (m.content.data.map Char.toUpper) })
  short_term_memory := some ()
  add_conversation_history := fun m _ => { m with content := m.content ++ "[ctx]" }
  generate_proof := fun _ _ => "P"
  post_output := fun _ _ _ _ => Except.ok ()

lemma post_outputs_shape {C S : Type} (a : GaladrielAgent C S) (cs : List C)
    (req resp : Message) (pr : String) :
    ∀ e ∈ (post_outputs a cs req resp pr).1, ∃ c, e = Event.send c req resp pr := by
  induction cs with
  | nil => intro e he; simp [post_outputs] at he
  | cons c cs ih =>
    intro e he
    unfold post_outputs at he
    cases h : a.post_output c req resp pr with
    | error err =>
      rw [h] at he
      simp at he
      exact ⟨c, he⟩
    | ok u =>
      rw [h] at he
      simp at he
      rcases he with he | he
      · exact ⟨c, he⟩
      · exact ih e he

lemma post_outputs_all_ok {C S : Type} (a : GaladrielAgent C S) (cs : List C)
    (req resp : Message) (pr : String)
    (h : ∀ c ∈ cs, a.post_output c req resp pr = Except.ok ()) :
    post_outputs a cs req resp pr =
      (cs.map (fun c => Event.send c req resp pr), Except.ok ()) := by
  induction cs with
  | nil => simp [post_outputs]
  | cons c cs ih =>
    have hc : a.post_output c req resp pr = Except.ok () := h c (List.mem_cons_self c cs)
    have hrest := ih (fun x hx => h x (List.mem_cons_of_mem c hx))
    unfold post_outputs
    rw [hc, hrest]
    simp

lemma post_outputs_short_circuit {C S : Type} (a : GaladrielAgent C S)
    (cs1 cs2 : List C) (c : C) (req resp : Message) (pr err : String)
    (h1 : ∀ x ∈ cs1, a.post_output x req resp pr = Except.ok ())
    (h2 : a.post_output c req resp pr = Except.error err) :
    post_outputs a (cs1 ++ c :: cs2) req resp pr =
      ((cs1 ++ [c]).map (fun x => Event.send x req resp pr), Except.error err) := by
  induction cs1 with
  | nil => simp [post_outputs, h2]
  | cons x cs1 ih =>
    have hx : a.post_output x req resp pr = Except.ok () := h1 x (List.mem_cons_self x cs1)
    have hrest := ih (fun y hy => h1 y (List.mem_cons_of_mem x hy))
    rw [List.cons_append]
    unfold post_outputs
    rw [hx, hrest]
    simp

lemma run_request_of_error {C S : Type} (a : GaladrielAgent C S) (m : Message)
    (err : String)
    (h : a.user_agent (addConversationHistoryStep a m) = Except.error err) :
    run_request a m =
      ([Event.userRun (addConversationHistoryStep a m)], Except.error err) := by
  simp only [run_request, h]

lemma run_request_of_none {C S : Type} (a : GaladrielAgent C S) (m : Message)
    (h : a.user_agent (addConversationHistoryStep a m) = Except.ok none) :
    run_request a m =
      ([Event.userRun (addConversationHistoryStep a m)], Except.ok ()) := by
  simp only [run_request, h]

lemma run_request_of_some {C S : Type} (a : GaladrielAgent C S) (m resp : Message)
    (h : a.user_agent (addConversationHistoryStep a m) = Except.ok (some resp)) :
    run_request a m =
      (Event.userRun (addConversationHistoryStep a m) ::
        Event.genProof (addConversationHistoryStep a m) resp ::
        Event.pubProof (addConversationHistoryStep a m) resp
          (a.generate_proof (addConversationHistoryStep a m) resp) ::
        (post_outputs a a.clients (addConversationHistoryStep a m) resp
          (a.generate_proof (addConversationHistoryStep a m) resp)).1,
       (post_outputs a a.clients (addConversationHistoryStep a m) resp
          (a.generate_proof (addConversationHistoryStep a m) resp)).2) := by
  simp only [run_request, h]

lemma run_request_userRuns {C S : Type} (a : GaladrielAgent C S) (m : Message) :
    (run_request a m).1.filterMap userRunRequest =
      [addConversationHistoryStep a m] := by
  cases h : a.user_agent (addConversationHistoryStep a m) with
  | error err =>
    rw [run_request_of_error a m err h]
    simp [userRunRequest]
  | ok o =>
    cases o with
    | none =>
      rw [run_request_of_none a m h]
      simp [userRunRequest]
    | some resp =>
      rw [run_request_of_some a m resp h]
      simp [userRunRequest]
      intro e he
      obtain ⟨c, rfl⟩ := post_outputs_shape a a.clients _ resp _ e he
      rfl

lemma run_request_no_start {C S : Type} (a : GaladrielAgent C S) (m : Message) :
    ∀ e ∈ (run_request a m).1, startClient e = none := by
  intro e he
  cases h : a.user_agent (addConversationHistoryStep a m) with
  | error err =>
    rw [run_request_of_error a m err h] at he
    simp at he
    subst he; rfl
  | ok o =>
    cases o with
    | none =>
      rw [run_request_of_none a m h] at he
      simp at he
      subst he; rfl
    | some resp =>
      rw [run_request_of_some a m resp h] at he
      simp at he
      rcases he with rfl | rfl | rfl | he
      · rfl
      · rfl
      · rfl
      · obtain ⟨c, rfl⟩ := post_outputs_shape a a.clients _ resp _ e he
        rfl

lemma runLoop_no_start {C S : Type} (a : GaladrielAgent C S) (q : List Message) :
    ∀ e ∈ (runLoop a q).1, startClient e = none := by
  induction q with
  | nil => intro e he; simp [runLoop] at he
  | cons m ms ih =>
    intro e he
    simp only [runLoop] at he
    cases hr : (run_request a m).2 with
    | error err =>
      rw [hr] at he
      exact run_request_no_start a m e he
    | ok u =>
      rw [hr] at he
      simp at he
      rcases he with he | he
      · exact run_request_no_start a m e he
      · exact ih e he

lemma runLoop_ok_trace {C S : Type} (a : GaladrielAgent C S) (q : List Message)
    (h : (runLoop a q).2 = Except.ok ()) :
    (runLoop a q).1 = (q.map (fun m => (run_request a m).1)).flatten := by
  induction q with
  | nil => simp [runLoop]
  | cons m ms ih =>
    simp only [runLoop] at h ⊢
    cases hr : (run_request a m).2 with
    | error err =>
      rw [hr] at h
      simp at h
    | ok u =>
      rw [hr] at h
      simp at h ⊢
      exact ih h

lemma filterMap_startClient_map_start {C : Type} (cs : List C) :
    (cs.map (Event.start (C := C))).filterMap startClient = cs := by
  induction cs with
  | nil => rfl
  | cons c cs ih => simp [List.filterMap_cons, startClient, ih]

lemma filterMap_sendClient_map_send {C : Type} (cs : List C)
    (req resp : Message) (pr : String) :
    (cs.map (fun c => Event.send c req resp pr)).filterMap sendClient = cs := by
  induction cs with
  | nil => rfl
  | cons c cs ih => simp [List.filterMap_cons, sendClient, ih]

lemma flatten_filterMap_userRuns {C S : Type} (a : GaladrielAgent C S)
    (q : List Message) :
    ((q.map (fun m => (run_request a m).1)).flatten).filterMap userRunRequest =
      q.map (addConversationHistoryStep a) := by
  induction q with
  | nil => rfl
  | cons m ms ih =>
    simp only [List.map_cons, List.flatten_cons, List.filterMap_append, ih,
      run_request_userRuns, List.singleton_append]

/-- C1 counterexample: with two configured clients where client `0`'s
`post_output` raises, client `1` never has `send` invoked — the delivery
loop short-circuits, refuting the claimed no-short-circuit aggregation. -/
theorem C1_counterexample :
    failingPortAgent.post_output 0 ⟨"hi", none⟩ ⟨"hi", none⟩ "p" =
      Except.error "boom" ∧
    failingPortAgent.clients = [0, 1] ∧
    (run_request failingPortAgent ⟨"hi", none⟩).1.filterMap sendClient = [0] :=
  ⟨rfl, rfl, by decide⟩

/-- C1 (corrected): output ports are delivered to sequentially in
configuration order and the first `send` exception short-circuits the
loop: ports up to and including the failing one have `send` invoked with
the same (request, response, proof) triple, ports after it are never
invoked, and the exception propagates out of `run_request`. -/
theorem C1_delivery_short_circuits {C S : Type} (a : GaladrielAgent C S)
    (m resp : Message) (cs1 cs2 : List C) (c : C) (err : String)
    (hresp : a.user_agent (addConversationHistoryStep a m) = Except.ok (some resp))
    (hclients : a.clients = cs1 ++ c :: cs2)
    (h1 : ∀ x ∈ cs1, a.post_output x (addConversationHistoryStep a m) resp
        (a.generate_proof (addConversationHistoryStep a m) resp) = Except.ok ())
    (h2 : a.post_output c (addConversationHistoryStep a m) resp
        (a.generate_proof (addConversationHistoryStep a m) resp) = Except.error err) :
    (run_request a m).1.filterMap sendClient = cs1 ++ [c] ∧
    (run_request a m).2 = Except.error err := by
  have ht := run_request_of_some a m resp hresp
  have hpost := post_outputs_short_circuit a cs1 cs2 c
    (addConversationHistoryStep a m) resp
    (a.generate_proof (addConversationHistoryStep a m) resp) err h1 h2
  rw [hclients] at ht
  rw [ht, hpost]
  constructor
  · simp only [List.filterMap_cons, sendClient, filterMap_sendClient_map_send]
  · rfl

/-- Witness for C1 (corrected) at the concrete two-client runtime. -/
theorem C1_delivery_short_circuits_witness :
    failingPortAgent.user_agent
        (addConversationHistoryStep failingPortAgent ⟨"hi", none⟩) =
      Except.ok (some ⟨"hi", none⟩) ∧
    failingPortAgent.clients = [] ++ 0 :: [1] ∧
    ((run_request failingPortAgent ⟨"hi", none⟩).1.filterMap sendClient =
        [] ++ [0] ∧
      (run_request failingPortAgent ⟨"hi", none⟩).2 = Except.error "boom") :=
  ⟨rfl, rfl, C1_delivery_short_circuits failingPortAgent ⟨"hi", none⟩
    ⟨"hi", none⟩ [] [1] 0 "boom" rfl rfl (by simp) rfl⟩

/-- C2 counterexample: with a user agent that raises, the dispatch loop
over queue `[a, b]` produces only the user-run event for `a` and the
propagated exception — message `b` is never processed, refuting the
claimed message-scoped failure isolation. -/
theorem C2_counterexample :
    runLoop crashingUserAgent [⟨"a", none⟩, ⟨"b", none⟩] =
      ([Event.userRun ⟨"a", none⟩], Except.error "user crash") ∧
    ¬ (Event.userRun ⟨"b", none⟩ ∈
        (runLoop crashingUserAgent [⟨"a", none⟩, ⟨"b", none⟩]).1) :=
  ⟨rfl, by decide⟩

/-- C2 (corrected): when the user-logic transform raises, no proof is
generated and no delivery occurs for that message, but the failure is
loop-fatal rather than message-scoped — the exception propagates out of
the dispatch loop and no subsequent queued message is processed. -/
theorem C2_user_failure_loop_fatal {C S : Type} (a : GaladrielAgent C S)
    (m : Message) (ms : List Message) (err : String)
    (h : a.user_agent (addConversationHistoryStep a m) = Except.error err) :
    runLoop a (m :: ms) =
      ([Event.userRun (addConversationHistoryStep a m)], Except.error err) := by
  simp only [runLoop, run_request_of_error a m err h]

/-- Witness for C2 (corrected) at the concrete crashing runtime. -/
theorem C2_user_failure_loop_fatal_witness :
    crashingUserAgent.user_agent
        (addConversationHistoryStep crashingUserAgent ⟨"a", none⟩) =
      Except.error "user crash" ∧
    runLoop crashingUserAgent [⟨"a", none⟩, ⟨"b", none⟩] =
      ([Event.userRun (addConversationHistoryStep crashingUserAgent ⟨"a", none⟩)],
        Except.error "user crash") :=
  ⟨rfl, C2_user_failure_loop_fatal crashingUserAgent ⟨"a", none⟩ [⟨"b", none⟩]
    "user crash" rfl⟩

/-- C3: when the user agent returns an absent (`None`) result, the
request's pipeline ends with only the user-run event and a normal
return — no proof generation, no proof publication, no `send` on any
output port. -/
theorem C3_absent_result_no_proof_no_delivery {C S : Type}
    (a : GaladrielAgent C S) (m : Message)
    (h : a.user_agent (addConversationHistoryStep a m) = Except.ok none) :
    run_request a m =
      ([Event.userRun (addConversationHistoryStep a m)], Except.ok ()) ∧
    ∀ e ∈ (run_request a m).1,
      isGenProof e = false ∧ isPubProof e = false ∧ isSend e = false := by
  have ht := run_request_of_none a m h
  refine ⟨ht, ?_⟩
  intro e he
  rw [ht] at he
  simp at he
  subst he
  exact ⟨rfl, rfl, rfl⟩

/-- Witness for C3 at the concrete absent-result runtime. -/
theorem C3_absent_result_witness :
    absentResultAgent.user_agent
        (addConversationHistoryStep absentResultAgent ⟨"x", none⟩) =
      Except.ok none ∧
    (run_request absentResultAgent ⟨"x", none⟩ =
        ([Event.userRun (addConversationHistoryStep absentResultAgent ⟨"x", none⟩)],
          Except.ok ()) ∧
      ∀ e ∈ (run_request absentResultAgent ⟨"x", none⟩).1,
        isGenProof e = false ∧ isPubProof e = false ∧ isSend e = false) :=
  ⟨rfl, C3_absent_result_no_proof_no_delivery absentResultAgent ⟨"x", none⟩ rfl⟩

/-- C4: dispatch is strictly sequential with one message in flight — on
a run that completes normally, the loop's trace is exactly the
concatenation of each message's full pipeline trace in queue order (so a
message's entire pipeline precedes the next message's), and the user
agent is invoked on the enriched messages in exactly queue order. -/
theorem C4_sequential_in_order {C S : Type} (a : GaladrielAgent C S)
    (q : List Message) (h : (runLoop a q).2 = Except.ok ()) :
    (runLoop a q).1 = (q.map (fun m => (run_request a m).1)).flatten ∧
    (runLoop a q).1.filterMap userRunRequest =
      q.map (addConversationHistoryStep a) := by
  have ht := runLoop_ok_trace a q h
  exact ⟨ht, by rw [ht, flatten_filterMap_userRuns]⟩

/-- Witness for C4 on a two-message queue of the scenario runtime. -/
theorem C4_sequential_in_order_witness :
    (runLoop scenarioAgent [⟨"a", none⟩, ⟨"b", none⟩]).2 = Except.ok () ∧
    ((runLoop scenarioAgent [⟨"a", none⟩, ⟨"b", none⟩]).1 =
        ([⟨"a", none⟩, ⟨"b", none⟩].map
          (fun m => (run_request scenarioAgent m).1)).flatten ∧
      (runLoop scenarioAgent [⟨"a", none⟩, ⟨"b", none⟩]).1.filterMap userRunRequest =
        [⟨"a", none⟩, ⟨"b", none⟩].map (addConversationHistoryStep scenarioAgent)) :=
  ⟨rfl, C4_sequential_in_order scenarioAgent [⟨"a", none⟩, ⟨"b", none⟩] rfl⟩

/-- C5: in the spec's concrete scenario (history appends "[ctx]", user
logic uppercases, proof generator returns "P"), feeding a message with
content "hi" makes every output port receive the triple
(request "hi[ctx]", response "HI[CTX]", proof "P"), after generation and
publication of that proof. -/
theorem C5_scenario_roundtrip :
    run_request scenarioAgent ⟨"hi", none⟩ =
      ([Event.userRun ⟨"hi[ctx]", none⟩,
        Event.genProof ⟨"hi[ctx]", none⟩ ⟨"HI[CTX]", none⟩,
        Event.pubProof ⟨"hi[ctx]", none⟩ ⟨"HI[CTX]", none⟩ "P",
        Event.send 0 ⟨"hi[ctx]", none⟩ ⟨"HI[CTX]", none⟩ "P",
        Event.send 1 ⟨"hi[ctx]", none⟩ ⟨"HI[CTX]", none⟩ "P"], Except.ok ()) :=
  rfl

/-- C6: whenever the user agent produces a response, the pipeline trace
is exactly user-run, then proof generation, then proof publication, and
everything after those two proof-collaborator calls is a delivery
(`send`) event — generate precedes publish and both precede every
delivery. -/
theorem C6_generate_publish_before_delivery {C S : Type}
    (a : GaladrielAgent C S) (m resp : Message)
    (h : a.user_agent (addConversationHistoryStep a m) = Except.ok (some resp)) :
    (run_request a m).1 =
      Event.userRun (addConversationHistoryStep a m) ::
      Event.genProof (addConversationHistoryStep a m) resp ::
      Event.pubProof (addConversationHistoryStep a m) resp
        (a.generate_proof (addConversationHistoryStep a m) resp) ::
      (post_outputs a a.clients (addConversationHistoryStep a m) resp
        (a.generate_proof (addConversationHistoryStep a m) resp)).1 ∧
    ∀ e ∈ (post_outputs a a.clients (addConversationHistoryStep a m) resp
        (a.generate_proof (addConversationHistoryStep a m) resp)).1,
      isSend e = true := by
  refine ⟨by rw [run_request_of_some a m resp h], ?_⟩
  intro e he
  obtain ⟨c, rfl⟩ := post_outputs_shape a a.clients _ resp _ e he
  rfl

/-- Witness for C6 at a concrete runtime whose user agent echoes the
request. -/
theorem C6_generate_publish_witness :
    failingPortAgent.user_agent
        (addConversationHistoryStep failingPortAgent ⟨"z", none⟩) =
      Except.ok (some ⟨"z", none⟩) ∧
    ((run_request failingPortAgent ⟨"z", none⟩).1 =
        Event.userRun (addConversationHistoryStep failingPortAgent ⟨"z", none⟩) ::
        Event.genProof (addConversationHistoryStep failingPortAgent ⟨"z", none⟩)
          ⟨"z", none⟩ ::
        Event.pubProof (addConversationHistoryStep failingPortAgent ⟨"z", none⟩)
          ⟨"z", none⟩
          (failingPortAgent.generate_proof
            (addConversationHistoryStep failingPortAgent ⟨"z", none⟩) ⟨"z", none⟩) ::
        (post_outputs failingPortAgent failingPortAgent.clients
          (addConversationHistoryStep failingPortAgent ⟨"z", none⟩) ⟨"z", none⟩
          (failingPortAgent.generate_proof
            (addConversationHistoryStep failingPortAgent ⟨"z", none⟩)
            ⟨"z", none⟩)).1 ∧
      ∀ e ∈ (post_outputs failingPortAgent failingPortAgent.clients
          (addConversationHistoryStep failingPortAgent ⟨"z", none⟩) ⟨"z", none⟩
          (failingPortAgent.generate_proof
            (addConversationHistoryStep failingPortAgent ⟨"z", none⟩)
            ⟨"z", none⟩)).1,
        isSend e = true) :=
  ⟨rfl, C6_generate_publish_before_delivery failingPortAgent ⟨"z", none⟩
    ⟨"z", none⟩ rfl⟩

/-- C7: with no short-term memory configured, the enrichment step is the
identity — the request reaches the user agent unchanged. -/
theorem C7_no_history_pass_through {C S : Type} (a : GaladrielAgent C S)
    (m : Message) (h : a.short_term_memory = none) :
    addConversationHistoryStep a m = m := by
  unfold addConversationHistoryStep
  rw [h]

/-- Witness for C7 at a concrete runtime with no short-term memory. -/
theorem C7_no_history_witness :
    failingPortAgent.short_term_memory = none ∧
    addConversationHistoryStep failingPortAgent ⟨"q", none⟩ = ⟨"q", none⟩ :=
  ⟨rfl, C7_no_history_pass_through failingPortAgent ⟨"q", none⟩ rfl⟩

/-- C8: restoring the exported state is a round trip — `load_state`
applied to `export_state`'s result reproduces the identical runtime, so
message enrichment and whole runs after the restore are bit-identical to
the pre-checkpoint runtime. -/
theorem C8_restore_export_roundtrip {C S : Type} (a : GaladrielAgent C S)
    (m : Message) (q : List Message) :
    load_state a (export_state a) = a ∧
    addConversationHistoryStep (load_state a (export_state a)) m =
      addConversationHistoryStep a m ∧
    run (load_state a (export_state a)) q = run a q :=
  ⟨rfl, rfl, rfl⟩

/-- C9: a single client list serves both port roles — the clients
started as producers at the beginning of `run` are exactly `clients`,
and on a fully successful delivery the clients receiving `send` are
exactly the same list. -/
theorem C9_single_client_list {C S : Type} (a : GaladrielAgent C S)
    (q : List Message) (m resp : Message)
    (hresp : a.user_agent (addConversationHistoryStep a m) = Except.ok (some resp))
    (hok : ∀ c ∈ a.clients, a.post_output c (addConversationHistoryStep a m) resp
        (a.generate_proof (addConversationHistoryStep a m) resp) = Except.ok ()) :
    (run a q).1.filterMap startClient = a.clients ∧
    (run_request a m).1.filterMap sendClient = a.clients := by
  constructor
  · show ((a.clients.map Event.start) ++
        (runLoop (load_state a none) q).1).filterMap startClient = a.clients
    rw [List.filterMap_append, filterMap_startClient_map_start]
    have h2 : (runLoop (load_state a none) q).1.filterMap startClient = [] :=
      List.filterMap_eq_nil_iff.mpr (runLoop_no_start _ q)
    rw [h2, List.append_nil]
  · rw [run_request_of_some a m resp hresp,
      post_outputs_all_ok a a.clients _ resp _ hok]
    simp only [List.filterMap_cons, sendClient, filterMap_sendClient_map_send]

/-- Witness for C9 at the scenario runtime with an empty queue. -/
theorem C9_single_client_list_witness :
    scenarioAgent.user_agent
        (addConversationHistoryStep scenarioAgent ⟨"hi", none⟩) =
      Except.ok (some ⟨"HI[CTX]", none⟩) ∧
    (∀ c ∈ scenarioAgent.clients, scenarioAgent.post_output c
        (addConversationHistoryStep scenarioAgent ⟨"hi", none⟩) ⟨"HI[CTX]", none⟩
        (scenarioAgent.generate_proof
          (addConversationHistoryStep scenarioAgent ⟨"hi", none⟩)
          ⟨"HI[CTX]", none⟩) = Except.ok ()) ∧
    ((run scenarioAgent []).1.filterMap startClient = scenarioAgent.clients ∧
      (run_request scenarioAgent ⟨"hi", none⟩).1.filterMap sendClient =
        scenarioAgent.clients) :=
  ⟨rfl, fun _ _ => rfl,
    C9_single_client_list scenarioAgent [] ⟨"hi", none⟩ ⟨"HI[CTX]", none⟩ rfl
      (fun _ _ => rfl)⟩

/-- C10: `load_state` is a frame no-op — for every input state it leaves
the runtime and each of its fields (clients, user agent, agent config,
s3 client, short-term memory) unchanged. -/
theorem C10_load_state_frame {C S : Type} (a : GaladrielAgent C S)
    (st : Option AgentState) :
    load_state a st = a ∧
    (load_state a st).clients = a.clients ∧
    (load_state a st).user_agent = a.user_agent ∧
    (load_state a st).agent_config = a.agent_config ∧
    (load_state a st).s3_client = a.s3_client ∧
    (load_state a st).short_term_memory = a.short_term_memory :=
  ⟨rfl, rfl, rfl, rfl, rfl, rfl⟩
